import Mathlib

/-!
# Verification of the course-entitlement lifecycle engine

Shallow embedding of `common/djangoapps/entitlements/models.py`:
`CourseEntitlementPolicy` (expiration / refund / regain windows) and
`CourseEntitlement` (the entitlement record, its derived-state predicates
and the directory/redemption operations).

Modelling conventions:
* instants and durations are `Int` numbers of seconds; Python's
  `timedelta.days` (floor division toward negative infinity) is
  `timedeltaDays`, integer division by 86400 (Lean's `Int` `/` is
  Euclidean division, which coincides with floor for a positive divisor);
* Django model instances become records; `None` becomes `none`;
* database querysets become lists of records; `filter`/`exclude` become
  `List.filter`, `order_by` a sort, `.first()` a `head?`;
* external collaborators (clock, course-overview lookup, certificate
  lookup, catalog resolution, enrollment service) live in an `Env`
  record, injected into every operation;
* mutation (`self.save()`) becomes returning the updated record.
-/

/-- Python `timedelta.days`: floor of the duration (in seconds) divided by
86400.  `Int` division by a positive divisor floors, matching Python. -/
def timedeltaDays (d : Int) : Int := d / 86400

/-- One row of `student.CourseEnrollment` as the entitlement code sees it:
the enrolled course run and the instant the enrollment was created. -/
structure CourseEnrollment where
  course_id : Nat
  created : Int
deriving DecidableEq, Repr

/-- `CourseEntitlementPolicy`: the three durations (stored as seconds,
mirroring Django `DurationField` timedeltas). -/
structure CourseEntitlementPolicy where
  expiration_period : Int
  refund_period : Int
  regain_period : Int
deriving DecidableEq, Repr

def DEFAULT_EXPIRATION_PERIOD_DAYS : Int := 450
def DEFAULT_REFUND_PERIOD_DAYS : Int := 60
def DEFAULT_REGAIN_PERIOD_DAYS : Int := 14

/-- The default-constructed `CourseEntitlementPolicy()`: 450/60/14 days. -/
def CourseEntitlementPolicy.default : CourseEntitlementPolicy :=
  { expiration_period := DEFAULT_EXPIRATION_PERIOD_DAYS * 86400
    refund_period := DEFAULT_REFUND_PERIOD_DAYS * 86400
    regain_period := DEFAULT_REGAIN_PERIOD_DAYS * 86400 }

/-- `CourseEntitlement`: user, course UUID, creation instant, cached
expiration instant, mode, optional bound enrollment, optional order
number, optional attached policy.  UUIDs, order numbers and modes are
opaque tokens modelled as `Nat`. -/
structure CourseEntitlement where
  user_id : Nat
  uuid : Nat
  course_uuid : Nat
  created : Int
  expired_at : Option Int
  mode : Nat
  enrollment_course_run : Option CourseEnrollment
  order_number : Option Nat
  _policy : Option CourseEntitlementPolicy
deriving DecidableEq, Repr

/-- External collaborators and the clock, injected into every operation.
`courseStart` is `CourseOverview.get_from_id(course_id).start`; modelled
from the spec: `CatalogLookup.courseStartDate(courseRunKey) -> instant`
(total).  `hasCertificate` is
`GeneratedCertificate.certificate_for_student(user_id, course_id) is not
None`; modelled from the spec: `CertificateLookup.hasCertificate(user,
courseIdentifier) -> boolean`.  `courseUuidForRun` is
`get_course_uuid_for_course`; modelled from the spec:
`CatalogLookup.resolveCourseIdentifier(courseRunKey) -> courseIdentifier |
none`.  `runFulfillable` is `is_course_run_entitlement_fulfillable`;
modelled from the spec: `CatalogLookup.isRunFulfillableVariant(courseRunKey,
entitlement) -> boolean` (defined on a present entitlement).  `enroll` is
`CourseEnrollment.enroll`; modelled from the spec:
`EnrollmentService.enroll(user, courseRunKey, mode) -> Enrollment` or an
`EnrollmentError`, here `none`. -/
structure Env where
  now : Int
  courseStart : Nat → Int
  hasCertificate : Nat → Nat → Bool
  courseUuidForRun : Nat → Option Nat
  runFulfillable : Nat → CourseEntitlement → Bool
  enroll : Nat → Nat → Nat → Option CourseEnrollment

/-- `CourseEntitlement.policy` property: the attached policy, or a
default-constructed `CourseEntitlementPolicy()` (null-object pattern). -/
def CourseEntitlement.policy (e : CourseEntitlement) : CourseEntitlementPolicy :=
  e._policy.getD CourseEntitlementPolicy.default

/-- `CourseEntitlement.get_days_since_created`: `(now() - self.created).days`. -/
def CourseEntitlement.get_days_since_created (env : Env) (e : CourseEntitlement) : Int :=
  timedeltaDays (env.now - e.created)

/-- `CourseEntitlementPolicy.get_days_until_expiration`: days until the
entitlement expires, including the regain logic when a course run is
bound. -/
def CourseEntitlementPolicy.get_days_until_expiration (env : Env)
    (p : CourseEntitlementPolicy) (e : CourseEntitlement) : Int :=
  let now_timestamp := env.now
  let expiry_date := e.created + p.expiration_period
  let days_until_expiry := timedeltaDays (expiry_date - now_timestamp)
  match e.enrollment_course_run with
  | none => days_until_expiry
  | some run =>
    let days_since_course_start := timedeltaDays (now_timestamp - env.courseStart run.course_id)
    let days_since_enrollment := timedeltaDays (now_timestamp - run.created)
    let days_since_entitlement_created := timedeltaDays (now_timestamp - e.created)
    let days_until_regain_ends := timedeltaDays p.regain_period -
      min (min days_since_course_start days_since_enrollment) days_since_entitlement_created
    if days_until_expiry < days_until_regain_ends then days_until_expiry
    else days_until_regain_ends

/-- `CourseEntitlementPolicy.is_entitlement_regainable`. -/
def CourseEntitlementPolicy.is_entitlement_regainable (env : Env)
    (p : CourseEntitlementPolicy) (e : CourseEntitlement) : Bool :=
  if e.expired_at.isSome then false
  else
    match e.enrollment_course_run with
    | some run =>
      if env.hasCertificate e.user_id run.course_id then false
      else decide (p.get_days_until_expiration env e ≥ 0)
    | none => false

/-- `CourseEntitlementPolicy.is_entitlement_refundable`. -/
def CourseEntitlementPolicy.is_entitlement_refundable (env : Env)
    (p : CourseEntitlementPolicy) (e : CourseEntitlement) : Bool :=
  if e.expired_at.isSome then false
  else if e.order_number.isNone then false
  else if decide (e.get_days_since_created env > timedeltaDays p.refund_period) then false
  else
    match e.enrollment_course_run with
    | some _ => p.is_entitlement_regainable env e
    | none => true

/-- `CourseEntitlementPolicy.is_entitlement_redeemable`. -/
def CourseEntitlementPolicy.is_entitlement_redeemable (env : Env)
    (p : CourseEntitlementPolicy) (e : CourseEntitlement) : Bool :=
  decide (e.get_days_since_created env < timedeltaDays p.expiration_period)
    && e.enrollment_course_run.isNone && e.expired_at.isNone

/-- `CourseEntitlement.get_days_until_expiration` (delegation through the
`policy` property). -/
def CourseEntitlement.get_days_until_expiration (env : Env) (e : CourseEntitlement) : Int :=
  e.policy.get_days_until_expiration env e

/-- `CourseEntitlement.is_entitlement_regainable` (delegation). -/
def CourseEntitlement.is_entitlement_regainable (env : Env) (e : CourseEntitlement) : Bool :=
  e.policy.is_entitlement_regainable env e

/-- `CourseEntitlement.is_entitlement_refundable` (delegation). -/
def CourseEntitlement.is_entitlement_refundable (env : Env) (e : CourseEntitlement) : Bool :=
  e.policy.is_entitlement_refundable env e

/-- `CourseEntitlement.is_entitlement_redeemable` (delegation). -/
def CourseEntitlement.is_entitlement_redeemable (env : Env) (e : CourseEntitlement) : Bool :=
  e.policy.is_entitlement_redeemable env e

/-- `CourseEntitlement.update_expired_at`: sets `expired_at := now` and
saves when it is unset and the entitlement is expired per policy, or is
redeemed and no longer regainable; otherwise leaves the record unchanged. -/
def CourseEntitlement.update_expired_at (env : Env) (e : CourseEntitlement) : CourseEntitlement :=
  if e.expired_at.isNone then
    if e.policy.get_days_until_expiration env e < 0 ∨
        (e.enrollment_course_run.isSome ∧ e.is_entitlement_regainable env = false) then
      { e with expired_at := some env.now }
    else e
  else e

/-- `CourseEntitlement.set_enrollment`: fulfills an entitlement by
specifying a session (binds the enrollment and saves, unconditionally). -/
def CourseEntitlement.set_enrollment (e : CourseEntitlement)
    (enrollment : CourseEnrollment) : CourseEntitlement :=
  { e with enrollment_course_run := some enrollment }

/-- The queryset relation `order_by('-created')` sorts by: newest first. -/
def createdDesc (a b : CourseEntitlement) : Prop := b.created ≤ a.created

instance : DecidableRel createdDesc := fun a b => Int.decLe b.created a.created

instance : IsTotal CourseEntitlement createdDesc :=
  ⟨fun a b => (Int.le_total b.created a.created).imp id id⟩

instance : IsTrans CourseEntitlement createdDesc :=
  ⟨fun _ _ _ hab hbc => le_trans hbc hab⟩

/-- `CourseEntitlement.get_active_entitlements_for_user`:
`filter(user=user).exclude(expired_at__isnull=False, enrollment_course_run=None)`:
every entitlement of the user except those both expired and unredeemed. -/
def CourseEntitlement.get_active_entitlements_for_user
    (db : List CourseEntitlement) (user : Nat) : List CourseEntitlement :=
  (db.filter (fun e => e.user_id == user)).filter
    (fun e => !(e.expired_at.isSome && e.enrollment_course_run.isNone))

/-- `CourseEntitlement.get_fulfillable_entitlements`:
`filter(user=user).exclude(expired_at__isnull=False,
enrollment_course_run__isnull=False).order_by('-created')`: every
entitlement of the user except those both expired and redeemed, newest
first. -/
def CourseEntitlement.get_fulfillable_entitlements
    (db : List CourseEntitlement) (user : Nat) : List CourseEntitlement :=
  List.insertionSort createdDesc
    ((db.filter (fun e => e.user_id == user)).filter
      (fun e => !(e.expired_at.isSome && e.enrollment_course_run.isSome)))

/-- `get_course_uuid_for_course` (catalog collaborator).  Modelled from
the spec: `resolveCourseIdentifier(courseRunKey) -> courseIdentifier |
none` — the repository's implementation is not under `src/`. -/
def get_course_uuid_for_course (env : Env) (course_run_key : Nat) : Option Nat :=
  env.courseUuidForRun course_run_key

/-- `is_course_run_entitlement_fulfillable` (from `entitlements/utils.py`,
not under `src/`).  Modelled from the spec:
`isRunFulfillableVariant(courseRunKey, entitlement) -> boolean`, defined
for a present entitlement; on an absent entitlement (missing data) it
fails closed per the spec's missing-data rule. -/
def is_course_run_entitlement_fulfillable (env : Env) (course_run_key : Nat) :
    Option CourseEntitlement → Bool
  | none => false
  | some e => env.runFulfillable course_run_key e

/-- Errors a modelled Python operation can raise. -/
inductive PyErr where
  | attributeError
deriving DecidableEq, Repr

/-- `CourseEntitlement.get_fulfillable_entitlement_for_user_course_run`,
mirrored in an error monad: the `entitlement.is_entitlement_redeemable()`
call on the result of `.first()` would raise `AttributeError` on `None`;
it is guarded by the short-circuiting `and` with
`is_course_run_entitlement_fulfillable`. -/
def CourseEntitlement.get_fulfillable_entitlement_for_user_course_run
    (env : Env) (db : List CourseEntitlement) (user : Nat) (course_run_key : Nat) :
    Except PyErr (Option CourseEntitlement) :=
  let entitlements := CourseEntitlement.get_fulfillable_entitlements db user
  if entitlements.isEmpty then Except.ok none
  else
    match get_course_uuid_for_course env course_run_key with
    | none => Except.ok none
    | some course_uuid =>
      let entitlement := (entitlements.filter (fun e => e.course_uuid == course_uuid)).head?
      if is_course_run_entitlement_fulfillable env course_run_key entitlement then
        match entitlement with
        | none => Except.error PyErr.attributeError
        | some ent =>
          if ent.is_entitlement_redeemable env then Except.ok (some ent)
          else Except.ok none
      else Except.ok none

/-- `CourseEntitlement.enroll_user_and_fulfill_entitlement`: enrolls the
user in the course run via the enrollment collaborator; on
`CourseEnrollmentException` logs and returns `False` leaving the
entitlement unchanged, on success binds the enrollment and returns
`True`.  The pair is (returned bool, entitlement after the call). -/
def CourseEntitlement.enroll_user_and_fulfill_entitlement (env : Env)
    (entitlement : CourseEntitlement) (course_run_key : Nat) :
    Bool × CourseEntitlement :=
  match env.enroll entitlement.user_id course_run_key entitlement.mode with
  | none => (false, entitlement)
  | some enrollment => (true, entitlement.set_enrollment enrollment)

/-- `CourseEntitlement.check_for_existing_entitlement_and_enroll`:
looks up a fulfillable entitlement for the run and, when one exists,
enrolls and fulfills it; returns the bool and the entitlement it acted
on, if any. -/
def CourseEntitlement.check_for_existing_entitlement_and_enroll (env : Env)
    (db : List CourseEntitlement) (user : Nat) (course_run_key : Nat) :
    Except PyErr (Bool × Option CourseEntitlement) :=
  match CourseEntitlement.get_fulfillable_entitlement_for_user_course_run env db user course_run_key with
  | Except.error err => Except.error err
  | Except.ok none => Except.ok (false, none)
  | Except.ok (some entitlement) =>
    let r := CourseEntitlement.enroll_user_and_fulfill_entitlement env entitlement course_run_key
    Except.ok (r.1, some r.2)

/-! ## Concrete fixtures for witnesses and boundary checks -/

/-- An environment at instant `t` (seconds): every course starts at 0, no
certificates exist, the catalog resolves nothing, no run is fulfillable
and enrollment always fails.  Only the fields a given check reads
matter. -/
def envAt (t : Int) : Env :=
  { now := t
    courseStart := fun _ => 0
    hasCertificate := fun _ _ => false
    courseUuidForRun := fun _ => none
    runFulfillable := fun _ _ => false
    enroll := fun _ _ _ => none }

/-- An unredeemed entitlement with an order, created at instant 0, under
the default policy. -/
def entUnredeemed : CourseEntitlement :=
  { user_id := 1, uuid := 10, course_uuid := 5, created := 0,
    expired_at := none, mode := 0, enrollment_course_run := none,
    order_number := some 1, _policy := none }

/-- An entitlement created at instant 0 and redeemed at instant 0 into a
run of course 77 (whose start is also instant 0 under `envAt`), default
policy, no certificate. -/
def entBoundAt0 : CourseEntitlement :=
  { user_id := 1, uuid := 11, course_uuid := 5, created := 0,
    expired_at := none, mode := 0,
    enrollment_course_run := some { course_id := 77, created := 0 },
    order_number := some 1, _policy := none }

/-! ## Claims -/

/-- C1: `get_days_until_expiration` returns
`floor((created + expiration_period) - now, in days)` when no enrollment
course run is bound; when one is bound, it returns the minimum of that
base value and `regain_period.days` minus the smallest of the three
elapsed-day counts (since course start, since enrollment creation, since
entitlement creation). -/
theorem C1_days_until_expiration (env : Env) (p : CourseEntitlementPolicy)
    (e : CourseEntitlement) :
    (e.enrollment_course_run = none →
      p.get_days_until_expiration env e =
        timedeltaDays (e.created + p.expiration_period - env.now)) ∧
    (∀ run, e.enrollment_course_run = some run →
      p.get_days_until_expiration env e =
        min (timedeltaDays (e.created + p.expiration_period - env.now))
          (timedeltaDays p.regain_period -
            min (min (timedeltaDays (env.now - env.courseStart run.course_id))
                (timedeltaDays (env.now - run.created)))
              (timedeltaDays (env.now - e.created)))) := by
  constructor
  · intro h
    simp [CourseEntitlementPolicy.get_days_until_expiration, h]
  · intro run h
    simp only [CourseEntitlementPolicy.get_days_until_expiration, h]
    rw [min_def]
    split_ifs <;> omega

/-- C1 witness: at the concrete fixture, the unbound branch applies and
450 days remain. -/
theorem C1_days_until_expiration_witness :
    CourseEntitlementPolicy.default.get_days_until_expiration (envAt 0) entUnredeemed = 450 := by
  have h :=
    (C1_days_until_expiration (envAt 0) CourseEntitlementPolicy.default entUnredeemed).1 rfl
  rw [h]
  decide

/-- C2: `update_expired_at` sets `expired_at` to the current time and
persists exactly when `expired_at` is unset and either
`get_days_until_expiration < 0` or a course run is bound and the
entitlement is not regainable; in every other case it leaves the record
unchanged, so once `expired_at` is non-null repeated calls never change
its value. -/
theorem C2_update_expired_at (env env2 : Env) (e : CourseEntitlement) :
    (e.expired_at = none →
      ((e.policy.get_days_until_expiration env e < 0 ∨
          (e.enrollment_course_run.isSome ∧ e.is_entitlement_regainable env = false)) →
        e.update_expired_at env = { e with expired_at := some env.now }) ∧
      (¬(e.policy.get_days_until_expiration env e < 0 ∨
          (e.enrollment_course_run.isSome ∧ e.is_entitlement_regainable env = false)) →
        e.update_expired_at env = e)) ∧
    (∀ t, e.expired_at = some t → e.update_expired_at env = e) ∧
    (∀ t, (e.update_expired_at env).expired_at = some t →
      ((e.update_expired_at env).update_expired_at env2).expired_at = some t) := by
  refine ⟨fun hnone => ⟨fun hc => ?_, fun hc => ?_⟩, fun t ht => ?_, fun t ht => ?_⟩
  · simp [CourseEntitlement.update_expired_at, hnone, hc]
  · simp [CourseEntitlement.update_expired_at, hnone, hc]
  · simp [CourseEntitlement.update_expired_at, ht]
  · generalize hgen : e.update_expired_at env = e' at ht ⊢
    simp [CourseEntitlement.update_expired_at, ht]

/-- C2 witness: an expired fixture is left unchanged, and a second call
preserves the cached timestamp. -/
theorem C2_update_expired_at_witness :
    ({ entUnredeemed with expired_at := some 9 } : CourseEntitlement).update_expired_at (envAt 0) =
      { entUnredeemed with expired_at := some 9 } := by
  exact (C2_update_expired_at (envAt 0) (envAt 1)
    { entUnredeemed with expired_at := some 9 }).2.1 9 rfl

/-- C3: the redeem-into-offering operation returns `false` and leaves the
entitlement's bound offering unchanged when the enrollment collaborator
fails; on success it binds the created enrollment and returns `true`. -/
theorem C3_enroll_user_and_fulfill (env : Env) (e : CourseEntitlement) (k : Nat) :
    (env.enroll e.user_id k e.mode = none →
      CourseEntitlement.enroll_user_and_fulfill_entitlement env e k = (false, e)) ∧
    (∀ enrollment, env.enroll e.user_id k e.mode = some enrollment →
      CourseEntitlement.enroll_user_and_fulfill_entitlement env e k =
        (true, { e with enrollment_course_run := some enrollment })) := by
  constructor
  · intro h
    simp [CourseEntitlement.enroll_user_and_fulfill_entitlement, h]
  · intro enrollment h
    simp [CourseEntitlement.enroll_user_and_fulfill_entitlement, h,
      CourseEntitlement.set_enrollment]

/-- C3 witness: under `envAt` (where enrollment always fails), redeeming
the fixture returns `false` with the entitlement unchanged. -/
theorem C3_enroll_user_and_fulfill_witness :
    CourseEntitlement.enroll_user_and_fulfill_entitlement (envAt 0) entUnredeemed 77 =
      (false, entUnredeemed) := by
  exact (C3_enroll_user_and_fulfill (envAt 0) entUnredeemed 77).1 rfl

/-- C4: `is_entitlement_regainable` is false whenever `expired_at` is set
or no enrollment course run is bound; when a run is bound it is false if
a certificate exists for that user and course, and otherwise true iff
`get_days_until_expiration >= 0` (zero inclusive).  For a redemption
bound at `T1` with course start also `T1` and no certificate, it is true
at `T1 + 14` days and false at `T1 + 15` days under the default policy. -/
theorem C4_regainable :
    (∀ (env : Env) (p : CourseEntitlementPolicy) (e : CourseEntitlement),
      e.expired_at.isSome → p.is_entitlement_regainable env e = false) ∧
    (∀ (env : Env) (p : CourseEntitlementPolicy) (e : CourseEntitlement),
      e.enrollment_course_run = none → p.is_entitlement_regainable env e = false) ∧
    (∀ (env : Env) (p : CourseEntitlementPolicy) (e : CourseEntitlement) run,
      e.enrollment_course_run = some run → e.expired_at = none →
      env.hasCertificate e.user_id run.course_id = true →
      p.is_entitlement_regainable env e = false) ∧
    (∀ (env : Env) (p : CourseEntitlementPolicy) (e : CourseEntitlement) run,
      e.enrollment_course_run = some run → e.expired_at = none →
      env.hasCertificate e.user_id run.course_id = false →
      (p.is_entitlement_regainable env e = true ↔ 0 ≤ p.get_days_until_expiration env e)) ∧
    CourseEntitlementPolicy.default.is_entitlement_regainable (envAt (14 * 86400)) entBoundAt0 = true ∧
    CourseEntitlementPolicy.default.is_entitlement_regainable (envAt (15 * 86400)) entBoundAt0 = false := by
  refine ⟨fun env p e h => ?_, fun env p e h => ?_, fun env p e run hr he hc => ?_,
    fun env p e run hr he hc => ?_, by decide, by decide⟩
  · simp [CourseEntitlementPolicy.is_entitlement_regainable, h]
  · simp [CourseEntitlementPolicy.is_entitlement_regainable, h]
  · simp [CourseEntitlementPolicy.is_entitlement_regainable, hr, he, hc]
  · simp [CourseEntitlementPolicy.is_entitlement_regainable, hr, he, hc, ge_iff_le]

/-- C4 witness: an entitlement with `expired_at` set is not regainable. -/
theorem C4_regainable_witness :
    CourseEntitlementPolicy.default.is_entitlement_regainable (envAt 0)
      { entBoundAt0 with expired_at := some 3 } = false := by
  exact C4_regainable.1 (envAt 0) CourseEntitlementPolicy.default
    { entBoundAt0 with expired_at := some 3 } rfl

/-- C5: `is_entitlement_refundable` is false if `expired_at` is set,
false if `order_number` is absent, and false if days since creation
strictly exceed `refund_period.days` (with an order, unredeemed, default
policy it is true at `T0 + 60` days and false at `T0 + 61` days); if a
course run is bound it equals `is_entitlement_regainable`, and otherwise
it is true. -/
theorem C5_refundable :
    (∀ (env : Env) (p : CourseEntitlementPolicy) (e : CourseEntitlement),
      e.expired_at.isSome → p.is_entitlement_refundable env e = false) ∧
    (∀ (env : Env) (p : CourseEntitlementPolicy) (e : CourseEntitlement),
      e.order_number = none → p.is_entitlement_refundable env e = false) ∧
    (∀ (env : Env) (p : CourseEntitlementPolicy) (e : CourseEntitlement),
      e.get_days_since_created env > timedeltaDays p.refund_period →
      p.is_entitlement_refundable env e = false) ∧
    (∀ (env : Env) (p : CourseEntitlementPolicy) (e : CourseEntitlement) run,
      e.expired_at = none → e.order_number.isSome →
      e.get_days_since_created env ≤ timedeltaDays p.refund_period →
      e.enrollment_course_run = some run →
      p.is_entitlement_refundable env e = p.is_entitlement_regainable env e) ∧
    (∀ (env : Env) (p : CourseEntitlementPolicy) (e : CourseEntitlement),
      e.expired_at = none → e.order_number.isSome →
      e.get_days_since_created env ≤ timedeltaDays p.refund_period →
      e.enrollment_course_run = none →
      p.is_entitlement_refundable env e = true) ∧
    CourseEntitlementPolicy.default.is_entitlement_refundable (envAt (60 * 86400)) entUnredeemed = true ∧
    CourseEntitlementPolicy.default.is_entitlement_refundable (envAt (61 * 86400)) entUnredeemed = false := by
  refine ⟨fun env p e h => ?_, fun env p e h => ?_, fun env p e h => ?_,
    fun env p e run he ho hd hr => ?_, fun env p e he ho hd hr => ?_, by decide, by decide⟩
  · simp [CourseEntitlementPolicy.is_entitlement_refundable, h]
  · simp [CourseEntitlementPolicy.is_entitlement_refundable, h]
  · simp [CourseEntitlementPolicy.is_entitlement_refundable, h]
  · obtain ⟨a, ha⟩ := Option.isSome_iff_exists.mp ho
    have h3 : ¬(e.get_days_since_created env > timedeltaDays p.refund_period) := not_lt.mpr hd
    simp [CourseEntitlementPolicy.is_entitlement_refundable, he, ha, hr, h3]
  · obtain ⟨a, ha⟩ := Option.isSome_iff_exists.mp ho
    have h3 : ¬(e.get_days_since_created env > timedeltaDays p.refund_period) := not_lt.mpr hd
    simp [CourseEntitlementPolicy.is_entitlement_refundable, he, ha, hr, h3]

/-- C5 witness: an expired fixture is not refundable. -/
theorem C5_refundable_witness :
    CourseEntitlementPolicy.default.is_entitlement_refundable (envAt 0)
      { entUnredeemed with expired_at := some 3 } = false := by
  exact C5_refundable.1 (envAt 0) CourseEntitlementPolicy.default
    { entUnredeemed with expired_at := some 3 } rfl

/-- C6: `is_entitlement_redeemable` is true iff days since creation are
strictly less than `expiration_period.days`, no course run is bound and
`expired_at` is unset; hence redeemable implies unredeemed and
unexpired, and under the default 450-day policy an unredeemed
entitlement created at `T0` is redeemable for `now < T0 + 450` days and
not redeemable at or after that instant. -/
theorem C6_redeemable :
    (∀ (env : Env) (p : CourseEntitlementPolicy) (e : CourseEntitlement),
      p.is_entitlement_redeemable env e = true ↔
        (e.get_days_since_created env < timedeltaDays p.expiration_period ∧
          e.enrollment_course_run = none ∧ e.expired_at = none)) ∧
    (∀ (env : Env) (p : CourseEntitlementPolicy) (e : CourseEntitlement),
      p.is_entitlement_redeemable env e = true →
      e.enrollment_course_run = none ∧ e.expired_at = none) ∧
    (∀ t : Int, t < 450 * 86400 →
      CourseEntitlementPolicy.default.is_entitlement_redeemable (envAt t) entUnredeemed = true) ∧
    (∀ t : Int, 450 * 86400 ≤ t →
      CourseEntitlementPolicy.default.is_entitlement_redeemable (envAt t) entUnredeemed = false) := by
  have hiff : ∀ (env : Env) (p : CourseEntitlementPolicy) (e : CourseEntitlement),
      p.is_entitlement_redeemable env e = true ↔
        (e.get_days_since_created env < timedeltaDays p.expiration_period ∧
          e.enrollment_course_run = none ∧ e.expired_at = none) := by
    intro env p e
    simp [CourseEntitlementPolicy.is_entitlement_redeemable, Option.isNone_iff_eq_none,
      and_assoc]
  refine ⟨hiff, fun env p e h => ((hiff env p e).1 h).2, fun t ht => ?_, fun t ht => ?_⟩
  · rw [hiff]
    refine ⟨?_, rfl, rfl⟩
    simp only [CourseEntitlement.get_days_since_created, timedeltaDays, entUnredeemed, envAt,
      CourseEntitlementPolicy.default, DEFAULT_EXPIRATION_PERIOD_DAYS]
    omega
  · have hd : ¬(CourseEntitlement.get_days_since_created (envAt t) entUnredeemed <
        timedeltaDays CourseEntitlementPolicy.default.expiration_period) := by
      simp only [CourseEntitlement.get_days_since_created, timedeltaDays, entUnredeemed, envAt,
        CourseEntitlementPolicy.default, DEFAULT_EXPIRATION_PERIOD_DAYS]
      omega
    rcases Bool.eq_false_or_eq_true
        (CourseEntitlementPolicy.default.is_entitlement_redeemable (envAt t) entUnredeemed) with
      h | h
    · exact absurd ((hiff _ _ _).1 h).1 hd
    · exact h

/-- C6 witness: the day before the 450-day boundary the fixture is
redeemable; at the boundary it is not. -/
theorem C6_redeemable_witness :
    CourseEntitlementPolicy.default.is_entitlement_redeemable (envAt (449 * 86400)) entUnredeemed = true ∧
    CourseEntitlementPolicy.default.is_entitlement_redeemable (envAt (450 * 86400)) entUnredeemed = false := by
  exact ⟨C6_redeemable.2.2.1 (449 * 86400) (by omega), C6_redeemable.2.2.2 (450 * 86400) (by omega)⟩

/-- C7: the active-entitlements query returns all of the user's
entitlements except those both expired and unredeemed, while the
fulfillable-entitlements query returns all of the user's entitlements
except those both expired and redeemed, ordered newest first by creation
date — so an expired-and-redeemed entitlement is active but not
fulfillable, and an expired-and-unredeemed one is fulfillable but not
active. -/
theorem C7_queries (db : List CourseEntitlement) (user : Nat) :
    (∀ e, e ∈ CourseEntitlement.get_active_entitlements_for_user db user ↔
      (e ∈ db ∧ e.user_id = user ∧
        ¬(e.expired_at.isSome ∧ e.enrollment_course_run = none))) ∧
    (∀ e, e ∈ CourseEntitlement.get_fulfillable_entitlements db user ↔
      (e ∈ db ∧ e.user_id = user ∧
        ¬(e.expired_at.isSome ∧ e.enrollment_course_run.isSome))) ∧
    (CourseEntitlement.get_fulfillable_entitlements db user).Sorted createdDesc ∧
    (∀ e, e ∈ db → e.user_id = user → e.expired_at.isSome →
      (e.enrollment_course_run.isSome →
        e ∈ CourseEntitlement.get_active_entitlements_for_user db user ∧
        e ∉ CourseEntitlement.get_fulfillable_entitlements db user) ∧
      (e.enrollment_course_run = none →
        e ∈ CourseEntitlement.get_fulfillable_entitlements db user ∧
        e ∉ CourseEntitlement.get_active_entitlements_for_user db user)) := by
  have hact : ∀ e, e ∈ CourseEntitlement.get_active_entitlements_for_user db user ↔
      (e ∈ db ∧ e.user_id = user ∧
        ¬(e.expired_at.isSome ∧ e.enrollment_course_run = none)) := by
    intro e
    simp [CourseEntitlement.get_active_entitlements_for_user, List.mem_filter,
      Option.isNone_iff_eq_none, Option.isSome_iff_ne_none, and_assoc]
    tauto
  have hful : ∀ e, e ∈ CourseEntitlement.get_fulfillable_entitlements db user ↔
      (e ∈ db ∧ e.user_id = user ∧
        ¬(e.expired_at.isSome ∧ e.enrollment_course_run.isSome)) := by
    intro e
    simp [CourseEntitlement.get_fulfillable_entitlements, List.mem_insertionSort,
      List.mem_filter, Option.isSome_iff_ne_none, and_assoc]
    tauto
  refine ⟨hact, hful, List.sorted_insertionSort createdDesc _, fun e hdb huser hexp => ⟨?_, ?_⟩⟩
  · intro hrun
    constructor
    · exact (hact e).2 ⟨hdb, huser, fun hcontra => by
        rcases hcontra with ⟨-, hnone⟩
        rw [hnone] at hrun
        simp at hrun⟩
    · intro hmem
      exact ((hful e).1 hmem).2.2 ⟨hexp, hrun⟩
  · intro hnone
    constructor
    · exact (hful e).2 ⟨hdb, huser, fun hcontra => by
        rcases hcontra with ⟨-, hsome⟩
        rw [hnone] at hsome
        simp at hsome⟩
    · intro hmem
      exact ((hact e).1 hmem).2.2 ⟨hexp, hnone⟩

/-- C7 witness: for a two-row table holding an expired-and-redeemed and
an expired-and-unredeemed entitlement of user 1, the first is active and
not fulfillable and the second is fulfillable and not active. -/
theorem C7_queries_witness :
    ({ entBoundAt0 with expired_at := some 5 } : CourseEntitlement) ∈
      CourseEntitlement.get_active_entitlements_for_user
        [{ entBoundAt0 with expired_at := some 5 }, { entUnredeemed with expired_at := some 5 }] 1 ∧
    ({ entBoundAt0 with expired_at := some 5 } : CourseEntitlement) ∉
      CourseEntitlement.get_fulfillable_entitlements
        [{ entBoundAt0 with expired_at := some 5 }, { entUnredeemed with expired_at := some 5 }] 1 ∧
    ({ entUnredeemed with expired_at := some 5 } : CourseEntitlement) ∈
      CourseEntitlement.get_fulfillable_entitlements
        [{ entBoundAt0 with expired_at := some 5 }, { entUnredeemed with expired_at := some 5 }] 1 ∧
    ({ entUnredeemed with expired_at := some 5 } : CourseEntitlement) ∉
      CourseEntitlement.get_active_entitlements_for_user
        [{ entBoundAt0 with expired_at := some 5 }, { entUnredeemed with expired_at := some 5 }] 1 := by
  have h := (C7_queries
    [{ entBoundAt0 with expired_at := some 5 }, { entUnredeemed with expired_at := some 5 }] 1).2.2.2
  have h1 := (h { entBoundAt0 with expired_at := some 5 } (by simp) (by decide) (by decide)).1
    (by decide)
  have h2 := (h { entUnredeemed with expired_at := some 5 } (by simp) (by decide) (by decide)).2
    (by decide)
  exact ⟨h1.1, h1.2, h2.1, h2.2⟩

/-- C8 counterexample: `set_enrollment` on an entitlement whose
`enrollment_course_run` is already bound to run 77 silently replaces it
with run 88 — the record changes and no error is signalled, so the
claim's "no-op or precondition violation" disjunction fails. -/
theorem C8_counterexample :
    entBoundAt0.enrollment_course_run = some { course_id := 77, created := 0 } ∧
    (entBoundAt0.set_enrollment { course_id := 88, created := 3 }).enrollment_course_run =
      some { course_id := 88, created := 3 } ∧
    ({ course_id := 77, created := 0 } : CourseEnrollment) ≠ { course_id := 88, created := 3 } ∧
    entBoundAt0.set_enrollment { course_id := 88, created := 3 } ≠ entBoundAt0 := by
  refine ⟨rfl, rfl, by decide, by decide⟩

/-- C8 amended: `set_enrollment` performs no precondition check — it
unconditionally binds the given enrollment, silently replacing any
already-bound offering; re-redemption protection lives in the callers,
because an entitlement with a bound course run is never
`is_entitlement_redeemable`. -/
theorem C8_set_enrollment_amended (env : Env) (e : CourseEntitlement)
    (enrollment run : CourseEnrollment) :
    (e.set_enrollment enrollment).enrollment_course_run = some enrollment ∧
    (e.enrollment_course_run = some run → e.is_entitlement_redeemable env = false) := by
  constructor
  · rfl
  · intro h
    simp [CourseEntitlement.is_entitlement_redeemable,
      CourseEntitlementPolicy.is_entitlement_redeemable, h]

/-- C8 witness: the amended statement at the bound fixture. -/
theorem C8_set_enrollment_amended_witness :
    (entBoundAt0.set_enrollment { course_id := 88, created := 3 }).enrollment_course_run =
      some { course_id := 88, created := 3 } ∧
    entBoundAt0.is_entitlement_redeemable (envAt 0) = false := by
  have h := C8_set_enrollment_amended (envAt 0) entBoundAt0
    { course_id := 88, created := 3 } { course_id := 77, created := 0 }
  exact ⟨h.1, h.2 rfl⟩

/-- C9: the expiration, refund and regain computations are total — they
always resolve to a boolean (respectively an integer) — and default to
not regainable / not refundable when the data they would need is absent
(no bound enrollment run, no order number). -/
theorem C9_predicates_total (env : Env) (p : CourseEntitlementPolicy) (e : CourseEntitlement) :
    (e.enrollment_course_run = none → p.is_entitlement_regainable env e = false) ∧
    (e.order_number = none → p.is_entitlement_refundable env e = false) ∧
    (p.is_entitlement_regainable env e = true ∨ p.is_entitlement_regainable env e = false) ∧
    (p.is_entitlement_refundable env e = true ∨ p.is_entitlement_refundable env e = false) ∧
    (∃ n : Int, p.get_days_until_expiration env e = n) := by
  refine ⟨fun h => ?_, fun h => ?_, ?_, ?_, ⟨_, rfl⟩⟩
  · simp [CourseEntitlementPolicy.is_entitlement_regainable, h]
  · simp [CourseEntitlementPolicy.is_entitlement_refundable, h]
  · exact Bool.eq_false_or_eq_true _
  · exact Bool.eq_false_or_eq_true _

/-- C9 witness: at the unbound fixture with no order, both defaults
fire. -/
theorem C9_predicates_total_witness :
    CourseEntitlementPolicy.default.is_entitlement_regainable (envAt 0)
      { entUnredeemed with order_number := none } = false ∧
    CourseEntitlementPolicy.default.is_entitlement_refundable (envAt 0)
      { entUnredeemed with order_number := none } = false := by
  have h := C9_predicates_total (envAt 0) CourseEntitlementPolicy.default
    { entUnredeemed with order_number := none }
  exact ⟨h.1 rfl, h.2.1 rfl⟩

/-- C10: `get_fulfillable_entitlement_for_user_course_run` returns
`none` rather than raising whenever no matching entitlement is accepted —
in particular when the user has fulfillable entitlements and the course
identifier resolves but none of them matches it, so that `.first()`
yields no entitlement. -/
theorem C10_lookup_total (env : Env) (db : List CourseEntitlement) (user k : Nat) :
    (∃ r, CourseEntitlement.get_fulfillable_entitlement_for_user_course_run env db user k =
      Except.ok r) ∧
    (∀ cu, get_course_uuid_for_course env k = some cu →
      CourseEntitlement.get_fulfillable_entitlements db user ≠ [] →
      (CourseEntitlement.get_fulfillable_entitlements db user).filter
        (fun e => e.course_uuid == cu) = [] →
      CourseEntitlement.get_fulfillable_entitlement_for_user_course_run env db user k =
        Except.ok none) := by
  constructor
  · unfold CourseEntitlement.get_fulfillable_entitlement_for_user_course_run
    by_cases h1 : (CourseEntitlement.get_fulfillable_entitlements db user).isEmpty
    · exact ⟨none, by simp [h1]⟩
    · cases hcu : get_course_uuid_for_course env k with
      | none => exact ⟨none, by simp [h1, hcu]⟩
      | some cu =>
        cases hh : (List.filter (fun e => e.course_uuid == cu)
            (CourseEntitlement.get_fulfillable_entitlements db user)).head? with
        | none =>
          exact ⟨none, by simp [h1, hcu, hh, is_course_run_entitlement_fulfillable]⟩
        | some ent =>
          by_cases h2 : is_course_run_entitlement_fulfillable env k (some ent) = true
          · by_cases h3 : ent.is_entitlement_redeemable env = true
            · exact ⟨some ent, by simp [h1, hcu, hh, h2, h3]⟩
            · exact ⟨none, by simp [h1, hcu, hh, h2, h3]⟩
          · exact ⟨none, by simp [h1, hcu, hh, h2]⟩
  · intro cu hcu hne hempty
    unfold CourseEntitlement.get_fulfillable_entitlement_for_user_course_run
    have h1 : (CourseEntitlement.get_fulfillable_entitlements db user).isEmpty = false := by
      simpa [List.isEmpty_iff] using hne
    simp [h1, hcu, hempty, is_course_run_entitlement_fulfillable]

/-- C10 witness: one fulfillable entitlement for course 5, the catalog
resolves the run to course 6, so no entitlement matches and the lookup
returns `Except.ok none` without raising. -/
theorem C10_lookup_total_witness :
    CourseEntitlement.get_fulfillable_entitlement_for_user_course_run
      { envAt 0 with courseUuidForRun := fun _ => some 6 } [entUnredeemed] 1 77 =
      Except.ok none := by
  exact (C10_lookup_total { envAt 0 with courseUuidForRun := fun _ => some 6 }
    [entUnredeemed] 1 77).2 6 rfl (by decide) (by decide)
